import Mathlib

/-!
Shallow embedding of `pipecat-mcp-server`s supervised child-process IPC core
(`src/pipecat_mcp_server/agent_ipc.py`) and voice-preset resolution
(`src/pipecat_mcp_server/domain/voice_preset.py`), together with theorems
settling the specification claims about them.

Python dictionaries exchanged over the IPC queues are modelled as
association lists of string key/value pairs; a non-dict queue element is
modelled by a separate constructor so that `isinstance(msg, dict)` checks
are faithful.  OS side effects (the `lsof`, `ps` and `kill` subprocess
calls) are modelled by an explicit environment record: a `none` result for
a call stands for the call raising an exception (which the Python code
catches), a `some` result is the captured stdout.
-/

namespace PipecatMCP

/-- A value that may travel over an IPC queue: either a Python dict with
string keys and string values, or any non-dict object. -/
inductive PyMsg where
  | dict (entries : List (String × String))
  | other
deriving DecidableEq

/-- Models `isinstance(msg, dict) and "_startup_error" in msg` — the test the
supervisor uses to recognise the reserved startup-error sentinel. -/
def isStartupSentinel : PyMsg → Bool
  | PyMsg.dict entries => entries.any (fun e => e.1 == "_startup_error")
  | PyMsg.other => false

/-- Lookup `msg[k]` for a dict message (first binding wins, as dict keys are
unique); `none` when `msg` is not a dict or lacks the key. -/
def getKey : PyMsg → String → Option String
  | PyMsg.dict entries, k => entries.lookup k
  | PyMsg.other, _ => none

/-- Whether `needle` occurs as a contiguous run inside the list. -/
def infixOf (needle : List Char) : List Char → Bool
  | [] => needle.isEmpty
  | c :: rest => needle.isPrefixOf (c :: rest) || infixOf needle rest

/-- Python `str.strip()` on the character list: drop leading and trailing
whitespace. -/
def pyStripChars (l : List Char) : List Char :=
  ((l.dropWhile Char.isWhitespace).reverse.dropWhile Char.isWhitespace).reverse

/-- Python `str.strip()`. -/
def pyStrip (s : String) : String :=
  String.mk (pyStripChars s.data)

/-- Python `str.lower()` (ASCII case folding suffices here). -/
def pyLower (s : String) : String :=
  String.mk (s.data.map Char.toLower)

/-- Split a character list at every occurrence of `sep` (Python
`str.split(sep)` for a single-character separator: empty pieces kept). -/
def splitCharList (sep : Char) : List Char → List (List Char)
  | [] => [[]]
  | c :: rest =>
    let r := splitCharList sep rest
    if c = sep then [] :: r
    else
      match r with
      | h :: t => (c :: h) :: t
      | [] => [[c]]

/-- Python `s.split("\n")`. -/
def pySplitNl (s : String) : List String :=
  (splitCharList (Char.ofNat 10) s.data).map String.mk

/-- Split a character list at every whitespace character. -/
def splitWsChars : List Char → List (List Char)
  | [] => [[]]
  | c :: rest =>
    let r := splitWsChars rest
    if c.isWhitespace then [] :: r
    else
      match r with
      | h :: t => (c :: h) :: t
      | [] => [[c]]

/-- Python substring test `sub in s`, on the underlying character lists. -/
def strContains (s sub : String) : Bool :=
  infixOf sub.data s.data

/-- Holds when `s` contains `sub` as a substring (propositional form used in
conclusions about error messages). -/
def ContainsSub (s sub : String) : Prop :=
  ∃ a b : String, s = a ++ sub ++ b

/-- Result of `_cleanup_port` (dataclass `PortCleanupResult`). -/
structure PortCleanupResult where
  killed : List String := []
  warned : List String := []
  port_available : Bool := true
  stale_pids : List String := []
deriving DecidableEq

/-- The OS-inspection environment a `_cleanup_port` call runs against.
Each field captures one kind of subprocess call the function makes;
`none` models the call raising (tool missing, timeout, permission error),
which the Python code catches with `except Exception`. -/
structure OsEnv where
  /-- stdout of `lsof -ti :port`; `none` = the call raised. -/
  lsofStdout : Option String
  /-- stdout of `ps -p pid -o command=` for each pid; `none` = raised. -/
  psCmd : String → Option String
  /-- whether `kill -9 pid` raises for this pid. -/
  killFails : String → Bool
  /-- stdout of `ps aux`; `none` = the call raised. -/
  psAuxStdout : Option String
  /-- Value of `str(os.getpid())` in the calling process. -/
  currentPid : String

/-- Models `result.stdout.strip().split("\n") if result.stdout.strip() else []`,
with the per-iteration `pid = pid.strip(); if not pid: continue`. -/
def parsePids (stdout : String) : List String :=
  if pyStrip stdout = "" then []
  else ((pySplitNl (pyStrip stdout)).map pyStrip).filter (fun p => p ≠ "")

/-- The pids the `for pid in ...` loop of `_cleanup_port` iterates over. -/
def listedPids (env : OsEnv) : List String :=
  match env.lsofStdout with
  | none => []
  | some out => parsePids out

/-- Models `cmd_line = ps_result.stdout.strip().lower()` followed by
`"python" in cmd_line or "pipecat" in cmd_line`. -/
def isOwnedCmd (raw : String) : Bool :=
  strContains (pyLower (pyStrip raw)) "python"
    || strContains (pyLower (pyStrip raw)) "pipecat"

/-- Whether a listed pid is classified as pipecat-owned: its `ps`
inspection succeeds and the command line names python or pipecat. -/
def ownedOf (env : OsEnv) (pid : String) : Bool :=
  match env.psCmd pid with
  | none => false
  | some raw => isOwnedCmd raw

/-- One iteration of the `for pid` loop body: the `(killed, warned)`
contribution of this pid.  A raised `ps` call or a raised `kill` call is
caught by the inner `except Exception: warned.append(pid)`. -/
def classify (env : OsEnv) (pid : String) : List String × List String :=
  match env.psCmd pid with
  | none => ([], [pid])
  | some raw =>
    if isOwnedCmd raw then
      if env.killFails pid then ([], [pid]) else ([pid], [])
    else ([], [pid])

/-- The whole `for pid` loop: accumulated `(killed, warned)` in order. -/
def classifyAll (env : OsEnv) : List String → List String × List String
  | [] => ([], [])
  | pid :: rest =>
    let kw := classify env pid
    let rec_ := classifyAll env rest
    (kw.1 ++ rec_.1, kw.2 ++ rec_.2)

/-- Python `line.split()` (whitespace split, empties dropped), restricted
to spaces as in `ps aux` output. -/
def pyFields (line : String) : List String :=
  ((splitWsChars line.data).filter (fun f => f ≠ [])).map String.mk

/-- The stale-supervisor scan over the lines of `ps aux` output: keep the
second field of every line that mentions `pipecat-mcp-server`, does not
mention `grep`, has at least two fields, and is not the current pid. -/
def staleFrom (currentPid : String) : List String → List String
  | [] => []
  | line :: rest =>
    let tail := staleFrom currentPid rest
    if !(strContains line "pipecat-mcp-server") || strContains line "grep" then tail
    else
      match pyFields line with
      | _ :: pidCandidate :: _ =>
        if pidCandidate ≠ currentPid then pidCandidate :: tail else tail
      | _ => tail

/-- Shallow embedding of `_cleanup_port`.  The fixed port argument only
feeds the strings passed to the OS tools, which the environment record
abstracts, so it is not a parameter here.  Every OS failure mode is a
value of `OsEnv`, and the function is total: arbitration never raises. -/
def cleanup_port (env : OsEnv) : PortCleanupResult :=
  let kw := classifyAll env (listedPids env)
  let killed := kw.1
  let warned := kw.2
  let port_available := warned.length == 0
  let stale_pids :=
    match env.psAuxStdout with
    | none => []
    | some out => staleFrom env.currentPid (pySplitNl (pyStrip out))
  { killed := killed, warned := warned, port_available := port_available,
    stale_pids := stale_pids }

/-- A worker process handle (`multiprocessing.Process`), as far as the
supervisor observes it: liveness at the moment it is probed, liveness
after a `terminate(); join(1.0)` round, and the recorded exit code
(`None` while the process has not terminated). -/
structure Proc where
  alive : Bool
  aliveAfterTerminate : Bool
  exitcode : Option Int
deriving DecidableEq

/-- The observable actions `_cleanup` may take on the process handle. -/
inductive StopAction where
  | terminate
  | join
  | kill
deriving DecidableEq

/-- Shallow embedding of `PipecatProcessManager._cleanup`: when a handle
exists and is alive, `terminate()` then `join(timeout=1.0)`; if still
alive, `kill()` then `join(timeout=1.0)`; finally the handle is cleared.
Returns the new handle value and the ordered action trace.  The function
is total: cleanup never raises. -/
def cleanupProc : Option Proc → Option Proc × List StopAction
  | none => (none, [])
  | some p =>
    let first := if p.alive then [StopAction.terminate, StopAction.join] else []
    let aliveAfter := if p.alive then p.aliveAfterTerminate else p.alive
    let second := if aliveAfter then [StopAction.kill, StopAction.join] else []
    (none, first ++ second)

/-- Models `PipecatProcessManager.stop`: logs, runs `_cleanup`, syncs globals.
Its effect on the handle is exactly `_cleanup`s. -/
def stop (proc : Option Proc) : Option Proc × List StopAction :=
  cleanupProc proc

/-- Render a Python value that is either an int or `None` the way an
f-string does. -/
def optIntRepr : Option Int → String
  | none => "None"
  | some n => toString n

/-- The non-blocking sentinel peek shared by the dead-process paths: the
`try: msg = response_queue.get_nowait(); if isinstance(msg, dict) and
"_startup_error" in msg: ...` block.  Yields the diagnostic text when the
head of the queue is a dict carrying `_startup_error`. -/
def peekStartupError : Option (List PyMsg) → Option String
  | some (m :: _) => getKey m "_startup_error"
  | _ => none

/-- Shallow embedding of `PipecatProcessManager.check_health` after the
`asyncio.sleep(delay)`: `proc` is the handle with its liveness as
observed after the delay, `respQueue` the response queue (`none` when it
was never created).  Returns the optional error message and the queue
contents after the call (`get_nowait` consumes the head message even when
it is not a sentinel; an empty-queue exception is swallowed).  The final
branch models Python truthiness: `if error_msg:` is taken only for a
diagnostic that is present AND non-empty, so an empty-string
`_startup_error` value falls through to the exit-code message exactly as
in the source. -/
def check_health (proc : Option Proc) (respQueue : Option (List PyMsg)) :
    Option String × Option (List PyMsg) :=
  if (match proc with | some p => p.alive | none => false) then (none, respQueue)
  else
    let error_msg : Option String := peekStartupError respQueue
    let respQueue2 : Option (List PyMsg) :=
      match respQueue with
      | some (_ :: rest) => some rest
      | q => q
    let exit_code : Option Int := match proc with | some p => p.exitcode | none => none
    match error_msg with
    | some e =>
      if e == "" then
        (some ("Voice agent process exited immediately (exit code: "
          ++ optIntRepr exit_code ++ ")"), respQueue2)
      else (some ("Voice agent crashed on startup:\n" ++ e), respQueue2)
    | none =>
      (some ("Voice agent process exited immediately (exit code: "
        ++ optIntRepr exit_code ++ ")"), respQueue2)

/-- A request message put on the command queue: a Python dict literal
`{"cmd": cmd, **kwargs}` as an ordered association list. -/
abbrev Req : Type := List (String × String)

/-- The response-wait phase of `send_command`: dequeue the first message;
if it is a `_startup_error` sentinel dict, discard it and dequeue once
more; return whatever comes second, sentinel or not.  `none` models the
call still polling because no (second) message is available yet. -/
def recvResponse : List PyMsg → Option (PyMsg × List PyMsg)
  | [] => none
  | m :: rest =>
    if isStartupSentinel m then
      match rest with
      | [] => none
      | m2 :: rest2 => some (m2, rest2)
    else some (m, rest)

/-- Shallow embedding of `PipecatProcessManager.send_command`: raises
`RuntimeError` when either queue is absent (modelled as `Except.error`,
with no enqueue); otherwise appends the request `{"cmd": cmd, **kwargs}`
to the command queue and waits for a response with single stale-sentinel
skip.  On success returns the command queue after the enqueue and the
outcome of the response wait. -/
def send_command (cmd : String) (kwargs : List (String × String))
    (cmdQueue : Option (List Req)) (respQueue : Option (List PyMsg)) :
    Except String (List Req × Option (PyMsg × List PyMsg)) :=
  match cmdQueue, respQueue with
  | some cq, some rq =>
    Except.ok (cq ++ [(("cmd", cmd) :: kwargs : Req)], recvResponse rq)
  | _, _ => Except.error "Pipecat process not started"

/-- Models `os.environ.get("TRANSPORT", "webrtc")`. -/
def transportFromEnv (envVar : Option String) : String :=
  envVar.getD "webrtc"

/-- The transport-flag injection of `start()`: starting from the parent
argv, append `-d` when the transport is `daily` and neither `--transport`
nor `-d` is present; for any other transport append `--transport <value>`
unless `--transport` is present; otherwise leave the list unchanged. -/
def injectTransport (argv : List String) (transport : String) : List String :=
  if transport = "daily" then
    if !(argv.contains "--transport") && !(argv.contains "-d") then
      argv ++ ["-d"]
    else argv
  else
    if !(argv.contains "--transport") then argv ++ ["--transport", transport]
    else argv

/-- The error string `start()` returns when the port is held by a foreign
process. -/
def portErrMsg (pid : String) : String :=
  "Port 7860 is occupied by PID " ++ pid ++ ". Kill it or choose a different port."

/-- Supervisor-side state: the two queues and the process handle. -/
structure MgrState where
  cmdQueue : Option (List Req)
  respQueue : Option (List PyMsg)
  process : Option Proc

/-- Outcome of a `start()` call. -/
structure StartResult where
  error : Option String
  state : MgrState
  spawned : Bool
  forwardedArgv : Option (List String)

/-- Shallow embedding of `PipecatProcessManager.start`: clean up any
existing handle, arbitrate the port via `cleanup_port`; when
`port_available` is false return the error naming the first warned pid
(`"unknown"` if none) without spawning and without touching the queues;
otherwise install two fresh queues, compute the forwarded argv with the
transport injection, and spawn the worker (`newProc` stands for the
handle the spawn produces). -/
def start (env : OsEnv) (argv : List String) (envTransport : Option String)
    (newProc : Proc) (s : MgrState) : StartResult :=
  let afterCleanup : MgrState := { s with process := (cleanupProc s.process).1 }
  let cleanup_result := cleanup_port env
  if !cleanup_result.port_available then
    { error := some (portErrMsg (cleanup_result.warned.headD "unknown")),
      state := afterCleanup, spawned := false, forwardedArgv := none }
  else
    let argvFwd := injectTransport argv (transportFromEnv envTransport)
    { error := none,
      state := { cmdQueue := some [], respQueue := some [], process := some newProc },
      spawned := true, forwardedArgv := some argvFwd }

/-! Voice-preset resolution (`domain/voice_preset.py`).  An environment is
modelled as a partial map from variable names to values (`env.get`). -/

/-- The tuple `VALID_PRESETS`. -/
def VALID_PRESETS : List String := ["groq", "deepgram", "cartesia", "local", "kokoro"]

/-- The mapping `PRESET_REQUIRED_KEYS`. -/
def PRESET_REQUIRED_KEYS : List (String × List String) :=
  [("groq", ["GROQ_API_KEY"]),
   ("deepgram", ["DEEPGRAM_API_KEY"]),
   ("cartesia", ["DEEPGRAM_API_KEY", "CARTESIA_API_KEY"]),
   ("local", []),
   ("kokoro", [])]

/-- Dataclass `VoicePresetConfig`. -/
structure VoicePresetConfig where
  name : String
  required_keys : List String := []
  missing_keys : List String := []
  is_valid : Bool := true
  error : Option String := none
deriving DecidableEq

/-- Models `resolve_preset`: `(preset_name or "groq").lower()` (Python treats
both `None` and the empty string as falsy), reject names outside
`VALID_PRESETS`, otherwise attach the required keys. -/
def resolve_preset (preset_name : Option String) : VoicePresetConfig :=
  let raw : String :=
    match preset_name with
    | none => "groq"
    | some s => if s = "" then "groq" else s
  let name := pyLower raw
  if !(VALID_PRESETS.contains name) then
    { name := name, is_valid := false,
      error := some ("Unknown preset \x27" ++ name ++ "\x27. Valid: "
        ++ String.intercalate ", " VALID_PRESETS) }
  else
    { name := name, required_keys := (PRESET_REQUIRED_KEYS.lookup name).getD [] }

/-- Python falsiness of `env.get(k)`: the key is absent or empty. -/
def isUnsetEnv (env : String → Option String) (k : String) : Bool :=
  match env k with
  | none => true
  | some v => v == ""

/-- The error message built when required keys are missing. -/
def missingMsg (name : String) (missing : List String) : String :=
  "Missing API key(s) for \x27" ++ name ++ "\x27 preset: "
    ++ String.intercalate ", " missing

/-- Models `validate_preset_with_env`: resolve the preset from `VOICE_PRESET`,
pass an invalid resolution through unchanged, otherwise collect the
required keys that are unset; when some are missing return a config that
is still valid but carries `missing_keys` and an error message. -/
def validate_preset_with_env (env : String → Option String) : VoicePresetConfig :=
  let config := resolve_preset (env "VOICE_PRESET")
  if !config.is_valid then config
  else
    let missing := config.required_keys.filter (fun k => isUnsetEnv env k)
    if missing ≠ [] then
      { name := config.name, required_keys := config.required_keys,
        missing_keys := missing, is_valid := true,
        error := some (missingMsg config.name missing) }
    else config

/-! Claim theorems. -/

/-- Claim C1: on a started supervisor, `send_command` skips at most one
stale `_startup_error` sentinel: when the first dequeued response is a
sentinel dict, the second dequeued message is returned to the caller
whatever it is — a normal response is delivered, and a second consecutive
sentinel is returned as-is; a non-sentinel first message is returned
directly. -/
theorem claim_C1 (cmd : String) (kwargs : List (String × String)) (cq : List Req)
    (m1 m2 : PyMsg) (rest : List PyMsg) :
    (isStartupSentinel m1 = true →
      send_command cmd kwargs (some cq) (some (m1 :: m2 :: rest)) =
        Except.ok (cq ++ [(("cmd", cmd) :: kwargs : Req)], some (m2, rest)))
    ∧ (isStartupSentinel m1 = false →
      send_command cmd kwargs (some cq) (some (m1 :: m2 :: rest)) =
        Except.ok (cq ++ [(("cmd", cmd) :: kwargs : Req)], some (m1, m2 :: rest))) := by
  constructor <;> intro h <;> simp [send_command, recvResponse, h]

/-- Witness for C1: a stale sentinel followed by a normal response yields
the normal response, and a sentinel followed by a second sentinel yields
that second sentinel as-is. -/
theorem claim_C1_witness :
    send_command "listen" [] (some [])
        (some [PyMsg.dict [("_startup_error", "old")], PyMsg.dict [("text", "hello")]]) =
      Except.ok ([[("cmd", "listen")]], some (PyMsg.dict [("text", "hello")], []))
    ∧ send_command "listen" [] (some [])
        (some [PyMsg.dict [("_startup_error", "old")],
               PyMsg.dict [("_startup_error", "new")]]) =
      Except.ok ([[("cmd", "listen")]], some (PyMsg.dict [("_startup_error", "new")], [])) :=
  ⟨(claim_C1 "listen" [] [] (PyMsg.dict [("_startup_error", "old")])
      (PyMsg.dict [("text", "hello")]) []).1 (by decide),
   (claim_C1 "listen" [] [] (PyMsg.dict [("_startup_error", "old")])
      (PyMsg.dict [("_startup_error", "new")]) []).1 (by decide)⟩

/-- Claim C4: `send_command cmd kwargs` enqueues exactly the request
`{"cmd": cmd, **kwargs}` on the command queue — so every enqueued request
carries the key `cmd` — and when either queue is absent it raises
(`RuntimeError`) and enqueues nothing. -/
theorem claim_C4 (cmd : String) (kwargs : List (String × String)) :
    (∀ cq rq, send_command cmd kwargs (some cq) (some rq) =
        Except.ok (cq ++ [(("cmd", cmd) :: kwargs : Req)], recvResponse rq)
      ∧ (("cmd", cmd) :: kwargs : Req).lookup "cmd" = some cmd)
    ∧ (∀ (cq : Option (List Req)) (rq : Option (List PyMsg)),
        cq = none ∨ rq = none →
        send_command cmd kwargs cq rq = Except.error "Pipecat process not started") := by
  refine ⟨fun cq rq => ⟨rfl, by simp [List.lookup]⟩, fun cq rq h => ?_⟩
  rcases h with h | h
  · subst h; cases rq <;> rfl
  · subst h; cases cq <;> rfl

/-- Witness for C4: `send_command("speak", text="hi")` enqueues exactly
`{cmd: "speak", text: "hi"}`, and with the command queue absent it raises
without enqueuing. -/
theorem claim_C4_witness :
    (send_command "speak" [("text", "hi")] (some []) (some []) =
        Except.ok ([[("cmd", "speak"), ("text", "hi")]], recvResponse [])
      ∧ ([("cmd", "speak"), ("text", "hi")] : Req).lookup "cmd" = some "speak")
    ∧ send_command "speak" [("text", "hi")] none (some []) =
        Except.error "Pipecat process not started" :=
  ⟨(claim_C4 "speak" [("text", "hi")]).1 [] [],
   (claim_C4 "speak" [("text", "hi")]).2 none (some []) (Or.inl rfl)⟩

/-- Claim C7: `stop` is idempotent and total — it never raises (it is a
total function), after any call the handle is absent, a call with no
handle is a no-op, and on a live handle it terminates and joins, then
kills and joins again only if the process survived termination. -/
theorem claim_C7 (s : Option Proc) :
    (stop s).1 = none
    ∧ stop ((stop s).1) = (none, [])
    ∧ stop none = (none, [])
    ∧ (∀ p : Proc, s = some p → p.alive = true →
        (stop s).2 = [StopAction.terminate, StopAction.join]
          ++ (if p.aliveAfterTerminate then [StopAction.kill, StopAction.join] else [])) := by
  refine ⟨?_, ?_, rfl, ?_⟩
  · cases s <;> rfl
  · have h : (stop s).1 = none := by cases s <;> rfl
    rw [h]
    rfl
  · intro p hp ha
    subst hp
    simp [stop, cleanupProc, ha]

/-- Witness for C7: stopping a live worker that dies on terminate yields
the graceful terminate-join trace and clears the handle. -/
theorem claim_C7_witness :
    (stop (some ⟨true, false, none⟩)).2 = [StopAction.terminate, StopAction.join]
      ++ (if (⟨true, false, none⟩ : Proc).aliveAfterTerminate then
            [StopAction.kill, StopAction.join] else []) :=
  (claim_C7 (some ⟨true, false, none⟩)).2.2.2 ⟨true, false, none⟩ rfl rfl

/-- Claim C8: `start()` forwards the supervisor argv plus an
injected transport selector: for transport `daily` the short flag `-d` is
appended only when neither `--transport` nor `-d` is present; for any
other transport the pair `--transport <value>` is appended unless
`--transport` is present; otherwise the list is unchanged.  When the port
is available, `start` forwards exactly this computed list. -/
theorem claim_C8 (argv : List String) (t : String) :
    (t = "daily" → argv.contains "--transport" = false → argv.contains "-d" = false →
      injectTransport argv t = argv ++ ["-d"])
    ∧ (t = "daily" →
        (argv.contains "--transport" = true ∨ argv.contains "-d" = true) →
        injectTransport argv t = argv)
    ∧ (t ≠ "daily" → argv.contains "--transport" = false →
      injectTransport argv t = argv ++ ["--transport", t])
    ∧ (t ≠ "daily" → argv.contains "--transport" = true →
      injectTransport argv t = argv)
    ∧ (∀ (env : OsEnv) (tv : Option String) (p : Proc) (s : MgrState),
        (cleanup_port env).port_available = true →
        (start env argv tv p s).forwardedArgv
          = some (injectTransport argv (transportFromEnv tv))) := by
  refine ⟨?_, ?_, ?_, ?_, ?_⟩
  · intro ht h1 h2
    have h1m : "--transport" ∉ argv := by simpa using h1
    have h2m : "-d" ∉ argv := by simpa using h2
    simp [injectTransport, ht, h1m, h2m]
  · intro ht h
    rcases h with h | h
    · have hm : "--transport" ∈ argv := by simpa using h
      simp [injectTransport, ht, hm]
    · have hm : "-d" ∈ argv := by simpa using h
      simp [injectTransport, ht, hm]
  · intro ht h1
    have h1m : "--transport" ∉ argv := by simpa using h1
    simp [injectTransport, ht, h1m]
  · intro ht h1
    have h1m : "--transport" ∈ argv := by simpa using h1
    simp [injectTransport, ht, h1m]
  · intro env tv p s h; simp [start, h]

/-- Witness for C8: with transport `daily` and a bare argv the short flag
is appended; with `--transport` already present the argv is unchanged. -/
theorem claim_C8_witness :
    injectTransport ["prog"] "daily" = ["prog"] ++ ["-d"]
    ∧ injectTransport ["prog", "--transport", "webrtc"] "daily"
        = ["prog", "--transport", "webrtc"] :=
  ⟨(claim_C8 ["prog"] "daily").1 rfl (by decide) (by decide),
   (claim_C8 ["prog", "--transport", "webrtc"] "daily").2.1 rfl (Or.inl (by decide))⟩

/-- The error string of a failed-port `start()` is never empty. -/
theorem portErrMsg_ne_empty (w : String) : portErrMsg w ≠ "" := by
  intro h
  have h2 : (portErrMsg w).data = "".data := by rw [h]
  rw [show portErrMsg w = "Port 7860 is occupied by PID " ++ w
    ++ ". Kill it or choose a different port." from rfl] at h2
  rw [String.data_append, String.data_append] at h2
  simp at h2

/-- Claim C2: when port arbitration reports `port_available = false`,
`start()` returns a non-empty error containing the first warned PID, and
returns it without spawning a worker and without installing new queues. -/
theorem claim_C2 (env : OsEnv) (argv : List String) (tv : Option String)
    (p : Proc) (s : MgrState) (w : String) (rest : List String)
    (hpa : (cleanup_port env).port_available = false)
    (hw : (cleanup_port env).warned = w :: rest) :
    (start env argv tv p s).error = some (portErrMsg w)
    ∧ portErrMsg w ≠ ""
    ∧ ContainsSub (portErrMsg w) w
    ∧ (start env argv tv p s).spawned = false
    ∧ (start env argv tv p s).state.cmdQueue = s.cmdQueue
    ∧ (start env argv tv p s).state.respQueue = s.respQueue := by
  have hs : start env argv tv p s =
      { error := some (portErrMsg ((cleanup_port env).warned.headD "unknown")),
        state := { s with process := (cleanupProc s.process).1 },
        spawned := false, forwardedArgv := none } := by
    simp [start, hpa]
  rw [hs, hw]
  exact ⟨rfl, portErrMsg_ne_empty w,
    ⟨"Port 7860 is occupied by PID ", ". Kill it or choose a different port.", rfl⟩,
    rfl, rfl, rfl⟩

/-- A concrete arbitration environment in which PID 9999 holds the port
with a foreign (non-python, non-pipecat) command line. -/
def envForeign : OsEnv :=
  { lsofStdout := some "9999",
    psCmd := fun q => if q = "9999" then some "/usr/bin/someapp --serve" else none,
    killFails := fun _ => false,
    psAuxStdout := some "",
    currentPid := "1" }

/-- Witness for C2: with the port held by foreign PID 9999, `start`
returns the occupied-port error for that PID, spawns nothing and leaves
the queues untouched. -/
theorem claim_C2_witness :
    (start envForeign [] none ⟨true, true, none⟩
        { cmdQueue := none, respQueue := none, process := none }).error
      = some (portErrMsg "9999")
    ∧ portErrMsg "9999" ≠ ""
    ∧ ContainsSub (portErrMsg "9999") "9999"
    ∧ (start envForeign [] none ⟨true, true, none⟩
        { cmdQueue := none, respQueue := none, process := none }).spawned = false
    ∧ (start envForeign [] none ⟨true, true, none⟩
        { cmdQueue := none, respQueue := none, process := none }).state.cmdQueue
      = ({ cmdQueue := none, respQueue := none, process := none } : MgrState).cmdQueue
    ∧ (start envForeign [] none ⟨true, true, none⟩
        { cmdQueue := none, respQueue := none, process := none }).state.respQueue
      = ({ cmdQueue := none, respQueue := none, process := none } : MgrState).respQueue :=
  claim_C2 envForeign [] none ⟨true, true, none⟩
    { cmdQueue := none, respQueue := none, process := none } "9999" []
    (by decide) (by decide)

/-- Claim C3: `check_health` on a supervisor with a worker handle: alive
after the delay means no error; dead with a queued `_startup_error`
sentinel at the head of the response queue yields a message embedding
that diagnostic text — the crash message when the diagnostic is
non-empty, and (because `if error_msg:` tests Python truthiness) the
exit-code message when the diagnostic is the empty string, a message
that trivially embeds the empty diagnostic; dead with no queued sentinel
yields a message embedding the recorded exit code. -/
theorem claim_C3 (p : Proc) (rq : Option (List PyMsg)) :
    (p.alive = true → (check_health (some p) rq).1 = none)
    ∧ (p.alive = false → ∀ text : String, peekStartupError rq = some text →
        (text ≠ "" →
          (check_health (some p) rq).1
            = some ("Voice agent crashed on startup:\n" ++ text))
        ∧ (text = "" →
          (check_health (some p) rq).1
            = some ("Voice agent process exited immediately (exit code: "
                ++ optIntRepr p.exitcode ++ ")"))
        ∧ (∃ msg : String, (check_health (some p) rq).1 = some msg
            ∧ ContainsSub msg text))
    ∧ (p.alive = false → peekStartupError rq = none →
        (check_health (some p) rq).1
          = some ("Voice agent process exited immediately (exit code: "
              ++ optIntRepr p.exitcode ++ ")")
        ∧ ContainsSub ("Voice agent process exited immediately (exit code: "
              ++ optIntRepr p.exitcode ++ ")") (optIntRepr p.exitcode)) := by
  refine ⟨fun ha => ?_, fun ha text ht => ⟨fun hne => ?_, fun he => ?_, ?_⟩,
    fun ha ht => ⟨?_, ?_⟩⟩
  · simp [check_health, ha]
  · have hbe : (text == "") = false := by simpa using hne
    simp [check_health, ha, ht, hbe]
  · subst he
    simp [check_health, ha, ht]
  · by_cases he : text = ""
    · subst he
      refine ⟨"Voice agent process exited immediately (exit code: "
        ++ optIntRepr p.exitcode ++ ")", by simp [check_health, ha, ht], ?_⟩
      exact ⟨"Voice agent process exited immediately (exit code: "
        ++ optIntRepr p.exitcode ++ ")", "", by simp⟩
    · have hbe : (text == "") = false := by simpa using he
      refine ⟨"Voice agent crashed on startup:\n" ++ text,
        by simp [check_health, ha, ht, hbe], ?_⟩
      exact ⟨"Voice agent crashed on startup:\n", "", by simp⟩
  · simp [check_health, ha, ht]
  · exact ⟨"Voice agent process exited immediately (exit code: ", ")", rfl⟩

/-- Witness for C3: an alive worker reports no error; a dead worker with
exit code 3 and an empty queue reports the exit code; a dead worker with
a queued non-empty sentinel reports the diagnostic text. -/
theorem claim_C3_witness :
    (check_health (some ⟨true, true, none⟩) (some [])).1 = none
    ∧ (check_health (some ⟨false, false, some 3⟩)
        (some [PyMsg.dict [("_startup_error", "X")]])).1
      = some ("Voice agent crashed on startup:\n" ++ "X")
    ∧ (check_health (some ⟨false, false, some 3⟩) (some [])).1
      = some ("Voice agent process exited immediately (exit code: "
          ++ optIntRepr (⟨false, false, some 3⟩ : Proc).exitcode ++ ")") :=
  ⟨(claim_C3 ⟨true, true, none⟩ (some [])).1 rfl,
   (((claim_C3 ⟨false, false, some 3⟩
      (some [PyMsg.dict [("_startup_error", "X")]])).2.1 rfl "X" (by decide)).1
      (by decide)),
   ((claim_C3 ⟨false, false, some 3⟩ (some [])).2.2 rfl rfl).1⟩

/-- Claim C10: on a supervisor whose worker was never started (handle and
response queue are both absent), `check_health` returns the error message
reporting exit code `None`; and whenever the handle is absent it never
returns the no-error result, whatever is in the response queue. -/
theorem claim_C10 :
    (check_health none none).1
      = some "Voice agent process exited immediately (exit code: None)"
    ∧ ∀ rq : Option (List PyMsg), ∃ msg : String,
        (check_health none rq).1 = some msg := by
  refine ⟨rfl, fun rq => ?_⟩
  cases hpk : peekStartupError rq with
  | none =>
    exact ⟨"Voice agent process exited immediately (exit code: "
      ++ optIntRepr none ++ ")", by simp [check_health, hpk]⟩
  | some e =>
    by_cases he : e = ""
    · exact ⟨"Voice agent process exited immediately (exit code: "
        ++ optIntRepr none ++ ")", by simp [check_health, hpk, he]⟩
    · have hbe : (e == "") = false := by simpa using he
      exact ⟨"Voice agent crashed on startup:\n" ++ e,
        by simp [check_health, hpk, hbe]⟩

/-- When every listed pid is inspected successfully and no kill raises,
the loop classifies exactly the owned pids as killed and the rest as
warned, in order. -/
theorem classifyAll_filter (env : OsEnv) :
    ∀ pids : List String,
    (∀ pid ∈ pids, env.psCmd pid ≠ none ∧ env.killFails pid = false) →
    classifyAll env pids
      = (pids.filter (fun pid => ownedOf env pid),
         pids.filter (fun pid => !(ownedOf env pid))) := by
  intro pids
  induction pids with
  | nil => intro h; rfl
  | cons pid rest ih =>
    intro h
    obtain ⟨hne, hkill⟩ := h pid (by simp)
    have hrest := ih (fun q hq => h q (List.mem_cons_of_mem _ hq))
    obtain ⟨raw, hraw⟩ := Option.ne_none_iff_exists'.mp hne
    by_cases how : isOwnedCmd raw = true
    · simp [classifyAll, hrest, classify, ownedOf, hraw, how, hkill]
    · have how' : isOwnedCmd raw = false := by simpa using how
      simp [classifyAll, hrest, classify, ownedOf, hraw, how']

/-- Every pid the loop records as killed had a successful `ps`
inspection. -/
theorem classifyAll_killed_inspected (env : OsEnv) :
    ∀ pids q, q ∈ (classifyAll env pids).1 → env.psCmd q ≠ none := by
  intro pids
  induction pids with
  | nil => intro q hq; simp [classifyAll] at hq
  | cons pid rest ih =>
    intro q hq
    simp [classifyAll] at hq
    rcases hq with hq | hq
    · cases hcmd : env.psCmd pid with
      | none => simp [classify, hcmd] at hq
      | some raw =>
        by_cases how : isOwnedCmd raw = true
        · by_cases hk : env.killFails pid = true
          · simp [classify, hcmd, how, hk] at hq
          · have hk' : env.killFails pid = false := by simpa using hk
            simp [classify, hcmd, how, hk'] at hq
            subst hq
            simp [hcmd]
        · have how' : isOwnedCmd raw = false := by simpa using how
          simp [classify, hcmd, how'] at hq
    · exact ih q hq

/-- Every pid the loop records as killed was classified as killed by its
own loop iteration (pid classification depends only on the pid, not on
its position in the listing). -/
theorem classifyAll_killed_classify (env : OsEnv) :
    ∀ pids q, q ∈ (classifyAll env pids).1 → (classify env q).1 = [q] := by
  intro pids
  induction pids with
  | nil => intro q hq; simp [classifyAll] at hq
  | cons pid rest ih =>
    intro q hq
    simp [classifyAll] at hq
    rcases hq with hq | hq
    · cases hcmd : env.psCmd pid with
      | none => simp [classify, hcmd] at hq
      | some raw =>
        by_cases how : isOwnedCmd raw = true
        · by_cases hk : env.killFails pid = true
          · simp [classify, hcmd, how, hk] at hq
          · have hk' : env.killFails pid = false := by simpa using hk
            simp [classify, hcmd, how, hk'] at hq
            subst hq
            simp [classify, hcmd, how, hk']
        · have how' : isOwnedCmd raw = false := by simpa using how
          simp [classify, hcmd, how'] at hq
    · exact ih q hq

/-- A listed pid whose own iteration classifies it as warned ends up
among the warned pids. -/
theorem classifyAll_warned_of_classify (env : OsEnv) :
    ∀ pids pid, pid ∈ pids → (classify env pid).2 = [pid] →
      pid ∈ (classifyAll env pids).2 := by
  intro pids
  induction pids with
  | nil => intro pid hmem _; simp at hmem
  | cons q rest ih =>
    intro pid hmem hcl
    simp [classifyAll]
    rcases List.mem_cons.mp hmem with h | h
    · subst h
      left
      simp [hcl]
    · right
      exact ih pid h hcl

/-- A listed pid whose `ps` inspection raises ends up among the warned
pids. -/
theorem classifyAll_warned_of_psfail (env : OsEnv) :
    ∀ pids pid, pid ∈ pids → env.psCmd pid = none →
      pid ∈ (classifyAll env pids).2 := by
  intro pids
  induction pids with
  | nil => intro pid hmem _; simp at hmem
  | cons q rest ih =>
    intro pid hmem hnone
    simp [classifyAll]
    rcases List.mem_cons.mp hmem with h | h
    · subst h
      left
      simp [classify, hnone]
    · right
      exact ih pid h hnone

/-- Claim C6: over a set of listed port holders whose command-line
inspections all succeed (and whose kills do not raise), the loop kills
exactly the pids whose command line names python or pipecat, warns about
every other pid, and `port_available` is true iff `warned` is empty. -/
theorem claim_C6 (env : OsEnv) :
    ((∀ pid ∈ listedPids env, env.psCmd pid ≠ none ∧ env.killFails pid = false) →
      (cleanup_port env).killed
        = (listedPids env).filter (fun pid => ownedOf env pid)
      ∧ (cleanup_port env).warned
        = (listedPids env).filter (fun pid => !(ownedOf env pid)))
    ∧ ((cleanup_port env).port_available = true ↔ (cleanup_port env).warned = []) := by
  constructor
  · intro h
    have hc := classifyAll_filter env (listedPids env) h
    exact ⟨by simp [cleanup_port, hc], by simp [cleanup_port, hc]⟩
  · simp [cleanup_port, List.length_eq_zero]

/-- A concrete environment with one owned listener (pid 7, a python
command line) and one foreign listener (pid 8, nginx). -/
def envMixed : OsEnv :=
  { lsofStdout := some "7\n8",
    psCmd := fun p =>
      if p = "7" then some "python bot.py"
      else if p = "8" then some "/usr/sbin/nginx" else none,
    killFails := fun _ => false,
    psAuxStdout := none,
    currentPid := "1" }

/-- Witness for C6: in `envMixed` exactly the python-owned pid 7 is
killed and the foreign pid 8 is warned. -/
theorem claim_C6_witness :
    (cleanup_port envMixed).killed
      = (listedPids envMixed).filter (fun pid => ownedOf envMixed pid)
    ∧ (cleanup_port envMixed).warned
      = (listedPids envMixed).filter (fun pid => !(ownedOf envMixed pid)) :=
  (claim_C6 envMixed).1 (by decide)

/-- A concrete environment where `lsof` lists pid 42 but the per-pid `ps`
inspection raises (e.g. a permission error). -/
def envPsFail : OsEnv :=
  { lsofStdout := some "42",
    psCmd := fun _ => none,
    killFails := fun _ => false,
    psAuxStdout := none,
    currentPid := "1" }

/-- Counterexample for C5 as stated: a failed per-pid `ps` inspection
does not degrade to "no processes found" — the inner exception handler
records the pid as warned, so a sub-step failure does contribute a warned
pid. -/
theorem claim_C5_counterexample :
    envPsFail.psCmd "42" = none
    ∧ (cleanup_port envPsFail).warned = ["42"]
    ∧ (cleanup_port envPsFail).warned ≠ [] :=
  ⟨rfl, by decide, by decide⟩

/-- A concrete environment where the `lsof` listing itself raises. -/
def envLsofFail : OsEnv :=
  { lsofStdout := none,
    psCmd := fun _ => none,
    killFails := fun _ => false,
    psAuxStdout := none,
    currentPid := "1" }

/-- Claim C5 (amended): a failure of the port-listing sub-step
contributes no killed and no warned pids, and a failure of the
stale-scan sub-step contributes no stale pids; but a per-pid
command-line-inspection failure — and likewise a failed `kill` of an
owned pid — records that pid as warned (never killed).  Arbitration
itself never raises: it is a total function of the OS environment. -/
theorem claim_C5_amended (env : OsEnv) :
    (env.lsofStdout = none →
      (cleanup_port env).killed = [] ∧ (cleanup_port env).warned = [])
    ∧ (env.psAuxStdout = none → (cleanup_port env).stale_pids = [])
    ∧ (∀ pid ∈ listedPids env, env.psCmd pid = none →
        pid ∈ (cleanup_port env).warned ∧ pid ∉ (cleanup_port env).killed)
    ∧ (∀ pid ∈ listedPids env, ∀ raw : String,
        env.psCmd pid = some raw → isOwnedCmd raw = true →
        env.killFails pid = true →
        pid ∈ (cleanup_port env).warned ∧ pid ∉ (cleanup_port env).killed) := by
  refine ⟨fun h => ⟨?_, ?_⟩, fun h => ?_, fun pid hmem hnone => ⟨?_, ?_⟩,
    fun pid hmem raw hraw how hkill => ⟨?_, ?_⟩⟩
  · simp [cleanup_port, listedPids, h, classifyAll]
  · simp [cleanup_port, listedPids, h, classifyAll]
  · simp [cleanup_port, h]
  · simpa [cleanup_port] using
      classifyAll_warned_of_psfail env (listedPids env) pid hmem hnone
  · intro hk
    exact classifyAll_killed_inspected env (listedPids env) pid
      (by simpa [cleanup_port] using hk) hnone
  · have hcl : (classify env pid).2 = [pid] := by
      simp [classify, hraw, how, hkill]
    simpa [cleanup_port] using
      classifyAll_warned_of_classify env (listedPids env) pid hmem hcl
  · intro hk
    have hq := classifyAll_killed_classify env (listedPids env) pid
      (by simpa [cleanup_port] using hk)
    have hcl1 : (classify env pid).1 = [] := by
      simp [classify, hraw, how, hkill]
    rw [hcl1] at hq
    simp at hq

/-- A concrete environment where pid 43 is owned (python command line)
but the `kill -9` call raises. -/
def envKillFail : OsEnv :=
  { lsofStdout := some "43",
    psCmd := fun p => if p = "43" then some "python bot.py" else none,
    killFails := fun _ => true,
    psAuxStdout := none,
    currentPid := "1" }

/-- Witness for C5 (amended): a raised `lsof` yields no killed and no
warned pids and a raised `ps aux` yields no stale pids, while the raised
per-pid inspection of pid 42 and the raised kill of owned pid 43 each
leave that pid warned, not killed. -/
theorem claim_C5_amended_witness :
    ((cleanup_port envLsofFail).killed = [] ∧ (cleanup_port envLsofFail).warned = [])
    ∧ (cleanup_port envLsofFail).stale_pids = []
    ∧ ("42" ∈ (cleanup_port envPsFail).warned
        ∧ "42" ∉ (cleanup_port envPsFail).killed)
    ∧ ("43" ∈ (cleanup_port envKillFail).warned
        ∧ "43" ∉ (cleanup_port envKillFail).killed) :=
  ⟨(claim_C5_amended envLsofFail).1 rfl,
   (claim_C5_amended envLsofFail).2.1 rfl,
   (claim_C5_amended envPsFail).2.2.1 "42" (by decide) rfl,
   (claim_C5_amended envKillFail).2.2.2 "43" (by decide) "python bot.py"
     (by decide) (by decide) rfl⟩

/-- The validity flag of `validate_preset_with_env` always coincides with
the validity of the underlying name resolution: missing credentials never
flip it. -/
theorem validate_is_valid_eq (env : String → Option String) :
    (validate_preset_with_env env).is_valid
      = (resolve_preset (env "VOICE_PRESET")).is_valid := by
  by_cases hv : (resolve_preset (env "VOICE_PRESET")).is_valid = true
  · rw [hv]
    simp only [validate_preset_with_env]
    split
    · exact hv
    · split
      · rfl
      · exact hv
  · have hv' : (resolve_preset (env "VOICE_PRESET")).is_valid = false := by
      simpa using hv
    simp [validate_preset_with_env, hv']

/-- Claim C9: for an environment resolving to a valid preset with some
required credential variables unset (missing or empty), the validated
config keeps `is_valid = true`, lists exactly the unset required
variables in `missing_keys`, and carries a non-`None` error naming them;
and `is_valid` is false only when the preset name itself is unknown. -/
theorem claim_C9 (env : String → Option String)
    (hvalid : (resolve_preset (env "VOICE_PRESET")).is_valid = true)
    (hmiss : (resolve_preset (env "VOICE_PRESET")).required_keys.filter
        (fun k => isUnsetEnv env k) ≠ []) :
    (validate_preset_with_env env).is_valid = true
    ∧ (validate_preset_with_env env).missing_keys
      = (resolve_preset (env "VOICE_PRESET")).required_keys.filter
          (fun k => isUnsetEnv env k)
    ∧ (validate_preset_with_env env).error
      = some (missingMsg (resolve_preset (env "VOICE_PRESET")).name
          ((resolve_preset (env "VOICE_PRESET")).required_keys.filter
            (fun k => isUnsetEnv env k)))
    ∧ (validate_preset_with_env env).error ≠ none
    ∧ (∀ env2 : String → Option String,
        (validate_preset_with_env env2).is_valid = false →
        (resolve_preset (env2 "VOICE_PRESET")).is_valid = false) := by
  have key : validate_preset_with_env env =
      { name := (resolve_preset (env "VOICE_PRESET")).name,
        required_keys := (resolve_preset (env "VOICE_PRESET")).required_keys,
        missing_keys := (resolve_preset (env "VOICE_PRESET")).required_keys.filter
          (fun k => isUnsetEnv env k),
        is_valid := true,
        error := some (missingMsg (resolve_preset (env "VOICE_PRESET")).name
          ((resolve_preset (env "VOICE_PRESET")).required_keys.filter
            (fun k => isUnsetEnv env k))) } := by
    simp [validate_preset_with_env, hvalid, hmiss]
  refine ⟨by rw [key], by rw [key], by rw [key], by rw [key]; simp,
    fun env2 h2 => ?_⟩
  rw [← validate_is_valid_eq env2]
  exact h2

/-- Environment selecting the groq preset with no credentials set. -/
def envGroqNoKey : String → Option String :=
  fun k => if k = "VOICE_PRESET" then some "groq" else none

/-- Witness for C9: with preset groq and `GROQ_API_KEY` unset the
validated config is still valid, records the missing key and a non-`None`
error naming it. -/
theorem claim_C9_witness :
    (validate_preset_with_env envGroqNoKey).is_valid = true
    ∧ (validate_preset_with_env envGroqNoKey).missing_keys
      = (resolve_preset (envGroqNoKey "VOICE_PRESET")).required_keys.filter
          (fun k => isUnsetEnv envGroqNoKey k)
    ∧ (validate_preset_with_env envGroqNoKey).error
      = some (missingMsg (resolve_preset (envGroqNoKey "VOICE_PRESET")).name
          ((resolve_preset (envGroqNoKey "VOICE_PRESET")).required_keys.filter
            (fun k => isUnsetEnv envGroqNoKey k)))
    ∧ (validate_preset_with_env envGroqNoKey).error ≠ none
    ∧ (∀ env2 : String → Option String,
        (validate_preset_with_env env2).is_valid = false →
        (resolve_preset (env2 "VOICE_PRESET")).is_valid = false) :=
  claim_C9 envGroqNoKey (by decide) (by decide)

end PipecatMCP
